import Mathlib

set_option maxHeartbeats 1000000

namespace PowerMonitor

/-!
Shallow embedding of the Tuya power-monitor service.

Source layout: `src/unnamed/part_000` is the current `tuya.js` module
(signer, token cache, `makeTuyaRequest`, `getDeviceInfo`,
`checkDeviceAvailability`); `src/unnamed/part_001` is the Express server with
the `POST /monitor` poll cycle.  HTTP calls are modelled by passing their
outcomes as explicit arguments, JavaScript numbers are modelled as `Int`
(raw telemetry values, millisecond clocks) and `ℚ` (scaled readings), and the
JavaScript truthiness coercions the code relies on (`||` coalescing, `if`
guards on strings/numbers) are modelled explicitly.
-/

/-- JavaScript `a || b` on an optional number: a present non-zero value wins;
`0` (falsy) and `undefined` fall through to `b`. -/
def jsOrNum (a : Option Int) (b : Option Int) : Option Int :=
  match a with
  | some v => if v = 0 then b else some v
  | none => b

/-- JavaScript `a || b` on an optional string with a string default: a present
non-empty string wins; the empty string (falsy) and `undefined` fall through. -/
def jsOrStr (a : Option String) (b : String) : String :=
  match a with
  | some s => if s = "" then b else s
  | none => b

/-- JavaScript `a || b` on an optional number with a number default. -/
def jsOrIntD (a : Option Int) (b : Int) : Int :=
  match a with
  | some v => if v = 0 then b else v
  | none => b

/-- The `online` field of the device-metadata result: JavaScript `true`,
`false`, absent (`undefined`), or a value of any other shape (the code tests
it with strict equality `=== false` / `=== true`). -/
inductive OnlineField where
  | jtrue
  | jfalse
  | absent
  | other
deriving DecidableEq, Repr

/-- Device metadata as returned by `getDeviceInfo` (`GET /v1.0/devices/id`),
restricted to the fields the prober reads (part_000 lines 238-239). -/
structure DeviceInfo where
  online : OnlineField
  active_time : Option Int := none
deriving DecidableEq, Repr

/-- The `result` field of a status envelope: a telemetry array of
`{code, value}` pairs, a present non-array value, or absent. -/
inductive ResultField where
  | arr (items : List (String × Int))
  | nonArray
  | absent
deriving DecidableEq, Repr

/-- A provider response envelope `{success, code, msg, result}`. -/
structure Envelope where
  success : Bool
  code : Option Int := none
  msg : Option String := none
  result : ResultField := ResultField.absent
deriving DecidableEq, Repr

/-- The `error.code` values that `checkDeviceAvailability`'s catch block
classifies specially (part_000 lines 304-308); any other or missing code
falls through to the raw message. -/
inductive NetCode where
  | ECONNABORTED
  | ENOTFOUND
  | ECONNREFUSED
deriving DecidableEq, Repr

/-- A thrown JavaScript error as the code inspects it: `error.code`,
`error.message`, and `error.response.data` (used by `makeTuyaRequest`'s
catch block). -/
structure JsError where
  code : Option NetCode := none
  message : String
  respData : Option Envelope := none
deriving DecidableEq, Repr

/-- Part_000 lines 212-215: `result.reduce((acc, {code, value}) =>
{ acc[code] = value; return acc; }, {})` — later pairs overwrite earlier
ones. -/
def statusMapOf (items : List (String × Int)) : String → Option Int :=
  items.foldl (fun acc p => fun k => if k = p.1 then some p.2 else acc k) (fun _ => none)

/-- Part_000 lines 211-215: `const result = response.data.result || []`
followed by the `Array.isArray` guard — a missing or non-array `result`
yields an empty status map. -/
def envelopeStatusMap (r : ResultField) : String → Option Int :=
  match r with
  | ResultField.arr items => statusMapOf items
  | ResultField.nonArray => fun _ => none
  | ResultField.absent => statusMapOf []

/-- The object returned by `checkDeviceAvailability`. -/
structure Observation where
  isOnline : Bool
  responseTimeMs : Option Int
  powerConsumptionW : Option ℚ
  voltageV : Option ℚ
  error : Option String
  deviceId : String
  deviceName : Option String
deriving DecidableEq, Repr

/-- Part_000 lines 217-220: `statusMap['cur_power'] || statusMap['cur_power_1']
|| statusMap['power'] || null`, then divide by 10 when non-null. -/
def extractPowerW (m : String → Option Int) : Option ℚ :=
  (jsOrNum (m "cur_power") (jsOrNum (m "cur_power_1") (jsOrNum (m "power") none))).map
    (fun v => (v : ℚ) / 10)

/-- Part_000 lines 222-224: `statusMap['cur_voltage'] || null`, then divide by
10 when non-null. -/
def extractVoltageV (m : String → Option Int) : Option ℚ :=
  (jsOrNum (m "cur_voltage") none).map (fun v => (v : ℚ) / 10)

/-- Part_000 lines 238-263: the online verdict taken in the success branch of
`checkDeviceAvailability` — `deviceInfo.online === false` means offline,
everything else (including a failed metadata fetch) defaults to online. -/
def onlineVerdict (deviceInfo : Option DeviceInfo) : Bool :=
  match deviceInfo with
  | none => true
  | some info =>
    match info.online with
    | OnlineField.jfalse => false
    | OnlineField.jtrue => true
    | OnlineField.absent => true
    | OnlineField.other => true

/-- Part_000 lines 302-308: timeout / connection-error classification of a
thrown error. -/
def classifyErrorMessage (e : JsError) : String :=
  match e.code with
  | some NetCode.ECONNABORTED => "Timeout"
  | some NetCode.ENOTFOUND => "Connection error"
  | some NetCode.ECONNREFUSED => "Connection error"
  | none => e.message

/-- `checkDeviceAvailability` (part_000 lines 191-320).  The metadata outcome
(`getDeviceInfo` never throws: it catches everything and returns `null`,
lines 172-185) and the status-call outcome (the resolved envelope, or the
error thrown by `makeTuyaRequest`/axios) are passed as arguments;
`responseTime` stands for the elapsed wall-clock difference computed at
line 203. -/
def checkDeviceAvailability (deviceId : String) (deviceName : Option String)
    (deviceInfo : Option DeviceInfo) (status : Except JsError Envelope)
    (responseTime : Int) : Observation :=
  match status with
  | Except.ok data =>
    if data.success then
      let statusMap := envelopeStatusMap data.result
      { isOnline := onlineVerdict deviceInfo
        responseTimeMs := some responseTime
        powerConsumptionW := extractPowerW statusMap
        voltageV := extractVoltageV statusMap
        error := none
        deviceId := deviceId
        deviceName := deviceName }
    else
      { isOnline := false
        responseTimeMs := none
        powerConsumptionW := none
        voltageV := none
        error := some (jsOrStr data.msg "Unknown API error")
        deviceId := deviceId
        deviceName := deviceName }
  | Except.error e =>
    { isOnline := false
      responseTimeMs := none
      powerConsumptionW := none
      voltageV := none
      error := some (classifyErrorMessage e)
      deviceId := deviceId
      deviceName := deviceName }

/-- The status call reached a non-success outcome: a resolved envelope with
`success` false, or a thrown error.  (Complement of the success-branch test
`response.data && response.data.success` at line 208.) -/
def statusCallFailed (status : Except JsError Envelope) : Bool :=
  match status with
  | Except.ok e => !e.success
  | Except.error _ => true

/-- The module-level token cache of part_000 (`accessToken`,
`tokenExpiryTime`, lines 17-18). -/
structure TokenState where
  accessToken : Option String := none
  tokenExpiryTime : Option Int := none
deriving DecidableEq, Repr

/-- Outcome of one network fetch against the token-issuance endpoint
(`GET /v1.0/token`): a success envelope carrying `access_token` and
`expire_time`, a non-success envelope carrying `msg`, or a thrown
network error. -/
inductive FetchOutcome where
  | ok (access_token : String) (expire_time : Option Int)
  | failEnvelope (msg : Option String)
  | netError (message : String)
deriving DecidableEq, Repr

/-- JavaScript truthiness of the cached `accessToken` string (the guard
`if (accessToken && ...)` at line 45). -/
def tokenTruthy (o : Option String) : Bool :=
  match o with
  | some s => s != ""
  | none => false

/-- The guard `tokenExpiryTime && Date.now() < tokenExpiryTime` at line 46
(a numeric `tokenExpiryTime` of `0` is falsy). -/
def expiryFresh (o : Option Int) (now : Int) : Bool :=
  match o with
  | some e => e != 0 && decide (now < e)
  | none => false

/-- The fetch-and-store part of `getAccessToken` (part_000 lines 55-87): on a
success envelope store the token and set
`tokenExpiryTime = now + expiresIn - 5*60*1000` where
`expiresIn = (expire_time || 7200) * 1000`; on a non-success envelope or a
thrown error clear the cache and raise the wrapped error message. -/
def fetchAndStoreToken (now : Int) (fetch : FetchOutcome) :
    Except String String × TokenState × Bool :=
  match fetch with
  | FetchOutcome.ok tok exp =>
    let expiresIn := jsOrIntD exp 7200 * 1000
    (Except.ok tok,
      { accessToken := some tok, tokenExpiryTime := some (now + expiresIn - 5 * 60 * 1000) },
      true)
  | FetchOutcome.failEnvelope msg =>
    (Except.error ("Не удалось получить токен доступа: " ++ jsOrStr msg "Unknown error"),
      { accessToken := none, tokenExpiryTime := none }, true)
  | FetchOutcome.netError m =>
    (Except.error ("Не удалось получить токен доступа: " ++ m),
      { accessToken := none, tokenExpiryTime := none }, true)

/-- `getAccessToken` (part_000 lines 43-88).  `fetch` is the outcome the
network would produce if a fetch is performed.  Returns the token (or the
raised error message), the new cache state, and whether a network fetch was
performed. -/
def getAccessToken (forceRefresh : Bool) (now : Int) (fetch : FetchOutcome)
    (st : TokenState) : Except String String × TokenState × Bool :=
  if tokenTruthy st.accessToken && !forceRefresh then
    if expiryFresh st.tokenExpiryTime now then
      (Except.ok (st.accessToken.getD ""), st, false)
    else
      fetchAndStoreToken now fetch
  else
    fetchAndStoreToken now fetch

/-- `makeTuyaRequest` (part_000 lines 93-166) for a fixed
path/method/query/body, with the network passed explicitly: `fetchSeq i` is
the outcome of the i-th token-endpoint fetch performed, `respond i` the
outcome of the i-th status request issued.  The signing of headers (lines
98-106) has no effect on control flow and is not repeated here.  Returns the
result (the resolved envelope or the thrown error), the final cache state,
the next fetch index, the next request index, and the access token attached
to each issued request in order. -/
def makeTuyaRequest (fetchSeq : Nat → FetchOutcome) (respond : Nat → Except JsError Envelope)
    (now : Int) (st : TokenState) (fetchIdx reqIdx : Nat) (retryCount : Nat) :
    Except JsError Envelope × TokenState × Nat × Nat × List String :=
  match getAccessToken false now (fetchSeq fetchIdx) st with
  | (Except.error m, st1, fetched) =>
    (Except.error { code := none, message := m, respData := none }, st1,
      fetchIdx + (if fetched then 1 else 0), reqIdx, [])
  | (Except.ok token, st1, fetched) =>
    let fi := fetchIdx + (if fetched then 1 else 0)
    match respond reqIdx with
    | Except.ok data =>
      if !data.success then
        if h : (data.code = some 1010 ∨ data.code = some 1011) ∧ retryCount < 1 then
          let r1 := makeTuyaRequest fetchSeq respond now
            { accessToken := none, tokenExpiryTime := none } fi (reqIdx + 1) (retryCount + 1)
          (r1.1, r1.2.1, r1.2.2.1, r1.2.2.2.1, token :: r1.2.2.2.2)
        else if data.code = some 429 then
          (Except.error { code := none, message := "Rate limit exceeded", respData := none },
            st1, fi, reqIdx + 1, [token])
        else
          (Except.ok data, st1, fi, reqIdx + 1, [token])
      else
        (Except.ok data, st1, fi, reqIdx + 1, [token])
    | Except.error e =>
      match e.respData with
      | some d =>
        if h2 : (d.code = some 1010 ∨ d.code = some 1011) ∧ retryCount < 1 then
          let r1 := makeTuyaRequest fetchSeq respond now
            { accessToken := none, tokenExpiryTime := none } fi (reqIdx + 1) (retryCount + 1)
          (r1.1, r1.2.1, r1.2.2.1, r1.2.2.2.1, token :: r1.2.2.2.2)
        else (Except.error e, st1, fi, reqIdx + 1, [token])
      | none => (Except.error e, st1, fi, reqIdx + 1, [token])
termination_by 1 - retryCount
decreasing_by all_goals (simp_wf; omega)

/-- One configured device (part_000 `getDevices`, lines 325-330). -/
structure Device where
  id : String
  name : String
deriving DecidableEq, Repr

/-- The argument tuple of one `db.savePowerStatus(...)` call. -/
structure SaveArgs where
  deviceId : String
  deviceName : Option String
  isOnline : Bool
  responseTimeMs : Option Int
  powerConsumptionW : Option ℚ
  error : Option String
deriving DecidableEq, Repr

/-- One element of the `results` array in the `POST /monitor` response body
(part_001 lines 103-109). -/
structure ResultEntry where
  deviceId : String
  deviceName : Option String
  isOnline : Bool
  responseTimeMs : Option Int
  powerConsumptionW : Option ℚ
deriving DecidableEq, Repr

/-- The summarized `POST /monitor` response body (part_001 lines 97-110). -/
structure Summary where
  devicesChecked : Nat
  online : Nat
  offline : Nat
  results : List ResultEntry
deriving DecidableEq, Repr

/-- What one poll cycle produces: the HTTP summary, plus the persistence
writes attempted (their arguments, paired with whether the write
succeeded or threw). -/
structure CycleOutput where
  summary : Summary
  saves : List (SaveArgs × Bool)
deriving DecidableEq, Repr

/-- One device's branch of the `/monitor` fan-out (part_001 lines 33-87):
`probe` is the outcome of `tuya.checkDeviceAvailability` (an observation, or
an exception message caught at line 62), `dbOk` whether the
`db.savePowerStatus` write succeeds.  Returns the observation contributed to
`results` and the attempted save.  In the probe-ok branch the saved power is
`result.isOnline ? result.powerConsumptionW : null` (line 42); a database
failure is caught and changes nothing (lines 52-56).  In the probe-error
branch the fallback object (lines 79-85) has no `responseTimeMs` or
`voltageV` fields, modelled as `none`. -/
def monitorDevice (d : Device) (probe : Except String Observation) (dbOk : Bool) :
    Observation × (SaveArgs × Bool) :=
  match probe with
  | Except.ok r =>
    (r,
      ({ deviceId := r.deviceId
         deviceName := r.deviceName
         isOnline := r.isOnline
         responseTimeMs := r.responseTimeMs
         powerConsumptionW := if r.isOnline then r.powerConsumptionW else none
         error := r.error }, dbOk))
  | Except.error msg =>
    ({ isOnline := false
       responseTimeMs := none
       powerConsumptionW := none
       voltageV := none
       error := some msg
       deviceId := d.id
       deviceName := some d.name },
      ({ deviceId := d.id
         deviceName := some d.name
         isOnline := false
         responseTimeMs := none
         powerConsumptionW := none
         error := some msg }, dbOk))

/-- The projection of an observation into the response's `results` array
(part_001 lines 103-109). -/
def toResultEntry (r : Observation) : ResultEntry :=
  { deviceId := r.deviceId
    deviceName := r.deviceName
    isOnline := r.isOnline
    responseTimeMs := r.responseTimeMs
    powerConsumptionW := r.powerConsumptionW }

/-- The `POST /monitor` poll cycle (part_001 lines 24-110): fan out over the
configured devices, compute `onlineCount` as
`results.filter(r => r.isOnline).length` and `offlineCount` as the
complement, and return the summary. -/
def monitorCycle (devices : List Device) (probe : Device → Except String Observation)
    (dbOk : Device → Bool) : CycleOutput :=
  let checked := devices.map (fun d => monitorDevice d (probe d) (dbOk d))
  let results := checked.map Prod.fst
  let onlineCount := (results.filter (fun r => r.isOnline)).length
  { summary :=
    { devicesChecked := results.length
      online := onlineCount
      offline := results.length - onlineCount
      results := results.map toResultEntry }
    saves := checked.map Prod.snd }

/-- Modelled from the spec: the SHA-256 hex digest supplied by Node's
`crypto` library (external code, not part of this repository), used at
part_000 line 31 for the content hash.  It is represented as an injective
symbolic encoding; the development relies only on its determinism and (for
distinct bodies) input-sensitivity, never on its hex shape. -/
def sha256Hex (s : String) : String := "sha256(" ++ s ++ ")"

/-- Modelled from the spec: the HMAC-SHA256 of the signing payload under the
secret key, rendered as uppercase hex by Node's `crypto` library (external
code, not part of this repository; part_000 line 36).  Represented
symbolically as a collision-free keyed digest. -/
inductive Digest where
  | hmacSHA256Hex (key : String) (msg : String)
deriving DecidableEq, Repr

/-- `Object.entries(query).sort()` compares the entry arrays by their string
conversions, i.e. `key + "," + value`. -/
def jsEntryKey (p : String × String) : String := p.1 ++ "," ++ p.2

/-- Stable insertion of one entry into an already-sorted list, ordered by
`jsEntryKey` (lexicographic on the entry's string conversion, as
JavaScript's default sort does; Lean's code-point `String` order matches the
UTF-16 order on the strings involved). -/
def insertEntry (x : String × String) : List (String × String) → List (String × String)
  | [] => [x]
  | y :: ys => if jsEntryKey x ≤ jsEntryKey y then x :: y :: ys else y :: insertEntry x ys

/-- `Object.entries(query).sort()` (part_000 line 32). -/
def sortEntries (q : List (String × String)) : List (String × String) :=
  q.foldr insertEntry []

/-- `Array.prototype.join('&')`. -/
def joinAmp : List String → String
  | [] => ""
  | [s] => s
  | s :: rest => s ++ "&" ++ joinAmp rest

/-- The canonicalized query string of part_000 line 32:
`Object.entries(query).sort().map(v => v.join('=')).join('&')`. -/
def canonicalQuery (query : List (String × String)) : String :=
  joinAmp ((sortEntries query).map (fun p => p.1 ++ "=" ++ p.2))

/-- `signRequest` (part_000 lines 28-38), with the wall clock `t` (line 29)
and the module state (`ACCESS_ID`, `ACCESS_KEY`, the cached `accessToken`
read by the `token || accessToken || ''` fallback at line 35) passed
explicitly.  The body is represented by its `JSON.stringify` serialization.
Returns the `{t, sign}` pair. -/
def signRequest (clientId accessKey : String) (cachedToken : Option String)
    (path method : String) (query : List (String × String)) (body : String)
    (token : Option String) (t : String) : String × Digest :=
  let bodyStr := if method = "POST" ∨ method = "PUT" then body else ""
  let contentHash := sha256Hex bodyStr
  let querySorted := canonicalQuery query
  let urlForSign := if querySorted = "" then path else path ++ "?" ++ querySorted
  let stringToSign := method ++ "\n" ++ contentHash ++ "\n" ++ "\n" ++ urlForSign
  let signStr := clientId ++ jsOrStr token (jsOrStr cachedToken "") ++ t ++ stringToSign
  (t, Digest.hmacSHA256Hex accessKey signStr)

/-- Modelled from the spec (§4.1): the signing payload as the spec words it —
client id, then the token (which the source lets fall back to the cached
module token before the empty string), then the timestamp, then the
string-to-sign `METHOD\ncontentHash\n\nPATH[?sortedQuery]` with the content
hash taken over the serialized body, empty for GET. -/
def specSigningPayload (clientId : String) (cachedToken : Option String)
    (path method : String) (query : List (String × String)) (body : String)
    (token : Option String) (t : String) : String :=
  let contentHash := sha256Hex (if method = "GET" then "" else body)
  let url := if canonicalQuery query = "" then path else path ++ "?" ++ canonicalQuery query
  clientId ++ jsOrStr token (jsOrStr cachedToken "") ++ t ++
    (method ++ "\n" ++ contentHash ++ "\n" ++ "\n" ++ url)

/-! ## C4 — the prober never throws; every failure path yields an offline
observation with a populated error -/

/-- C4: for every outcome of the underlying HTTP calls — success envelope,
provider error envelope, timeout, connection error, or thrown exception —
`checkDeviceAvailability` returns an `Observation` (it is a total function of
the outcomes), and on every failure path that observation has
`isOnline = false` and a non-null error string. -/
theorem probe_failure_yields_offline_with_error
    (deviceId : String) (deviceName : Option String) (deviceInfo : Option DeviceInfo)
    (status : Except JsError Envelope) (rt : Int)
    (h : statusCallFailed status = true) :
    (checkDeviceAvailability deviceId deviceName deviceInfo status rt).isOnline = false ∧
    (checkDeviceAvailability deviceId deviceName deviceInfo status rt).error ≠ none := by
  cases status with
  | ok e =>
    simp only [statusCallFailed, Bool.not_eq_true'] at h
    simp [checkDeviceAvailability, h]
  | error e => simp [checkDeviceAvailability]

/-- Witness for C4 at a thrown timeout error. -/
theorem probe_failure_yields_offline_with_error_witness :
    statusCallFailed
      (Except.error { message := "timeout of 15000ms exceeded", code := some NetCode.ECONNABORTED }) = true ∧
    ((checkDeviceAvailability "bf3c70a960958bcf11ruml" (some "Розетка 1") none
        (Except.error { message := "timeout of 15000ms exceeded", code := some NetCode.ECONNABORTED }) 7).isOnline = false ∧
      (checkDeviceAvailability "bf3c70a960958bcf11ruml" (some "Розетка 1") none
        (Except.error { message := "timeout of 15000ms exceeded", code := some NetCode.ECONNABORTED }) 7).error ≠ none) :=
  ⟨by decide,
    probe_failure_yields_offline_with_error "bf3c70a960958bcf11ruml" (some "Розетка 1") none
      (Except.error { message := "timeout of 15000ms exceeded", code := some NetCode.ECONNABORTED }) 7 (by decide)⟩

/-! ## C9 — the online flag comes from the metadata, defaulting to true -/

/-- C9: when the status call succeeds, `isOnline` is decided by the metadata:
`online === false` gives false, `online === true` gives true, and a failed
metadata fetch (`getDeviceInfo` returned null) or an absent/other-shaped
`online` field defaults to true. -/
theorem online_flag_from_metadata
    (deviceId : String) (deviceName : Option String) (deviceInfo : Option DeviceInfo)
    (env : Envelope) (rt : Int) (hs : env.success = true) :
    (deviceInfo = none →
      (checkDeviceAvailability deviceId deviceName deviceInfo (Except.ok env) rt).isOnline
        = true) ∧
    (∀ info, deviceInfo = some info → info.online = OnlineField.jfalse →
      (checkDeviceAvailability deviceId deviceName deviceInfo (Except.ok env) rt).isOnline
        = false) ∧
    (∀ info, deviceInfo = some info → info.online = OnlineField.jtrue →
      (checkDeviceAvailability deviceId deviceName deviceInfo (Except.ok env) rt).isOnline
        = true) ∧
    (∀ info, deviceInfo = some info →
      (info.online = OnlineField.absent ∨ info.online = OnlineField.other) →
      (checkDeviceAvailability deviceId deviceName deviceInfo (Except.ok env) rt).isOnline
        = true) := by
  refine ⟨?_, ?_, ?_, ?_⟩
  · intro h; subst h; simp [checkDeviceAvailability, hs, onlineVerdict]
  · intro info h ho; subst h; simp [checkDeviceAvailability, hs, onlineVerdict, ho]
  · intro info h ho; subst h; simp [checkDeviceAvailability, hs, onlineVerdict, ho]
  · intro info h ho; subst h
    rcases ho with ho | ho <;> simp [checkDeviceAvailability, hs, onlineVerdict, ho]

/-- Witness for C9: metadata reporting `online = false` forces an offline
verdict even though the status call succeeded. -/
theorem online_flag_from_metadata_witness :
    (Envelope.success { success := true, result := ResultField.arr [("cur_power", 235)] } = true) ∧
    (checkDeviceAvailability "d" none (some { online := OnlineField.jfalse })
      (Except.ok { success := true, result := ResultField.arr [("cur_power", 235)] })
      120).isOnline = false :=
  ⟨rfl,
    (online_flag_from_metadata "d" none (some { online := OnlineField.jfalse })
        { success := true, result := ResultField.arr [("cur_power", 235)] } 120 rfl).2.1
      { online := OnlineField.jfalse } rfl rfl⟩

/-! ## C10 — a genuine zero reading is coalesced away by `||` -/

/-- C10: a successful status response binding `cur_power` to exactly `0`
(with no `cur_power_1` or `power` binding) yields `powerConsumptionW = none`
rather than `some 0`, because the extraction coalesces falsy values with
`||`; likewise `cur_voltage = 0` yields `voltageV = none`; consequently a
zero-watt/zero-volt response is indistinguishable from one with no telemetry
at the public interface. -/
theorem zero_reading_reported_absent
    (deviceId : String) (deviceName : Option String) (deviceInfo : Option DeviceInfo)
    (items : List (String × Int)) (code : Option Int) (msg : Option String) (rt : Int) :
    (statusMapOf items "cur_power" = some 0 → statusMapOf items "cur_power_1" = none →
      statusMapOf items "power" = none →
      (checkDeviceAvailability deviceId deviceName deviceInfo
        (Except.ok { success := true, code := code, msg := msg, result := ResultField.arr items })
        rt).powerConsumptionW = none) ∧
    (statusMapOf items "cur_voltage" = some 0 →
      (checkDeviceAvailability deviceId deviceName deviceInfo
        (Except.ok { success := true, code := code, msg := msg, result := ResultField.arr items })
        rt).voltageV = none) ∧
    (checkDeviceAvailability deviceId deviceName deviceInfo
        (Except.ok { success := true, code := code, msg := msg, result := ResultField.arr [("cur_power", 0), ("cur_voltage", 0)] })
        rt =
      checkDeviceAvailability deviceId deviceName deviceInfo
        (Except.ok { success := true, code := code, msg := msg, result := ResultField.arr [] })
        rt) := by
  refine ⟨?_, ?_, ?_⟩
  · intro hp hp1 hp2
    simp [checkDeviceAvailability, envelopeStatusMap, extractPowerW, jsOrNum, hp, hp1, hp2]
  · intro hv
    simp [checkDeviceAvailability, envelopeStatusMap, extractVoltageV, jsOrNum, hv]
  · simp [checkDeviceAvailability, envelopeStatusMap, extractPowerW, extractVoltageV, jsOrNum,
      statusMapOf]

/-- Witness for C10 at a concrete zero-power, zero-voltage response. -/
theorem zero_reading_reported_absent_witness :
    statusMapOf [("cur_power", 0), ("cur_voltage", 0)] "cur_power" = some 0 ∧
    (checkDeviceAvailability "d" none none
      (Except.ok { success := true, result := ResultField.arr [("cur_power", 0), ("cur_voltage", 0)] })
      5).powerConsumptionW = none :=
  ⟨by decide,
    (zero_reading_reported_absent "d" none none [("cur_power", 0), ("cur_voltage", 0)]
        none none 5).1 (by decide) (by decide) (by decide)⟩

/-! ## C5 — power/voltage scaling (corrected: only non-zero raw values) -/

/-- C5 counterexample: a successful response whose telemetry contains the
pair `(cur_power, 0)` (and `(cur_voltage, 0)`) yields
`powerConsumptionW = none`, not `0 / 10 = 0` as the claim's universal
statement requires; likewise for voltage. -/
theorem power_scaling_zero_counterexample :
    (checkDeviceAvailability "d" none none
      (Except.ok { success := true, result := ResultField.arr [("cur_power", 0), ("cur_voltage", 0)] })
      5).powerConsumptionW ≠ some ((0 : ℚ) / 10) ∧
    (checkDeviceAvailability "d" none none
      (Except.ok { success := true, result := ResultField.arr [("cur_power", 0), ("cur_voltage", 0)] })
      5).voltageV ≠ some ((0 : ℚ) / 10) := by
  constructor <;>
    simp [checkDeviceAvailability, envelopeStatusMap, extractPowerW, extractVoltageV, jsOrNum,
      statusMapOf]

/-- C5 (amended): for a successful status response whose status map (later
duplicate codes overwrite earlier ones) binds `cur_power` to a non-zero raw
value `v`, the observation has `powerConsumptionW = v / 10`, and a non-zero
`cur_voltage` value `w` yields `voltageV = w / 10`; in particular
`cur_power = 235` yields `23.5` (see the witness). -/
theorem power_voltage_scaling
    (deviceId : String) (deviceName : Option String) (deviceInfo : Option DeviceInfo)
    (items : List (String × Int)) (code : Option Int) (msg : Option String) (rt : Int) :
    (∀ v : Int, statusMapOf items "cur_power" = some v → v ≠ 0 →
      (checkDeviceAvailability deviceId deviceName deviceInfo
        (Except.ok { success := true, code := code, msg := msg, result := ResultField.arr items })
        rt).powerConsumptionW = some ((v : ℚ) / 10)) ∧
    (∀ w : Int, statusMapOf items "cur_voltage" = some w → w ≠ 0 →
      (checkDeviceAvailability deviceId deviceName deviceInfo
        (Except.ok { success := true, code := code, msg := msg, result := ResultField.arr items })
        rt).voltageV = some ((w : ℚ) / 10)) := by
  constructor
  · intro v hv hv0
    simp [checkDeviceAvailability, envelopeStatusMap, extractPowerW, jsOrNum, hv, hv0]
  · intro w hw hw0
    simp [checkDeviceAvailability, envelopeStatusMap, extractVoltageV, jsOrNum, hw, hw0]

/-- Witness for C5 (amended): `cur_power = 235` yields `23.5` W. -/
theorem power_voltage_scaling_witness :
    statusMapOf [("cur_power", 235)] "cur_power" = some 235 ∧ (235 : Int) ≠ 0 ∧
    (checkDeviceAvailability "d" none none
      (Except.ok { success := true, result := ResultField.arr [("cur_power", 235)] })
      120).powerConsumptionW = some ((47 : ℚ) / 2) := by
  refine ⟨by decide, by decide, ?_⟩
  have h := (power_voltage_scaling "d" none none [("cur_power", 235)] none none 120).1
    235 (by decide) (by decide)
  rw [h]
  norm_num

/-! ## C1 — offline observations and recorded power (corrected) -/

/-- C1 counterexample: when the status call succeeds with `cur_power = 235`
but the metadata reports `online = false`, the observation returned by
`checkDeviceAvailability` has `isOnline = false` yet carries the
telemetry-extracted power and voltage, contradicting the claim that an
offline observation always has null `powerConsumptionW`/`voltageV`. -/
theorem offline_keeps_telemetry_counterexample :
    (checkDeviceAvailability "bf3c70a960958bcf11ruml" (some "Розетка 1")
      (some { online := OnlineField.jfalse })
      (Except.ok { success := true, result := ResultField.arr [("cur_power", 235), ("cur_voltage", 2301)] })
      150).isOnline = false ∧
    (checkDeviceAvailability "bf3c70a960958bcf11ruml" (some "Розетка 1")
      (some { online := OnlineField.jfalse })
      (Except.ok { success := true, result := ResultField.arr [("cur_power", 235), ("cur_voltage", 2301)] })
      150).powerConsumptionW ≠ none ∧
    (checkDeviceAvailability "bf3c70a960958bcf11ruml" (some "Розетка 1")
      (some { online := OnlineField.jfalse })
      (Except.ok { success := true, result := ResultField.arr [("cur_power", 235), ("cur_voltage", 2301)] })
      150).voltageV ≠ none := by
  refine ⟨?_, ?_, ?_⟩ <;>
    simp [checkDeviceAvailability, envelopeStatusMap, extractPowerW, extractVoltageV, jsOrNum,
      statusMapOf, onlineVerdict]

/-- C1 (amended): on every status-call failure path the observation has
`isOnline = false` with null power and voltage; and the power value the
orchestrator passes to `db.savePowerStatus` is null for every offline
device.  But when the status call succeeds while the metadata reports
`online = false`, the returned observation itself retains the
telemetry-extracted readings (see the counterexample). -/
theorem offline_power_recording
    : (∀ (deviceId : String) (deviceName : Option String) (deviceInfo : Option DeviceInfo)
        (status : Except JsError Envelope) (rt : Int), statusCallFailed status = true →
        (checkDeviceAvailability deviceId deviceName deviceInfo status rt).isOnline = false ∧
        (checkDeviceAvailability deviceId deviceName deviceInfo status rt).powerConsumptionW
          = none ∧
        (checkDeviceAvailability deviceId deviceName deviceInfo status rt).voltageV = none) ∧
      (∀ (devices : List Device) (probe : Device → Except String Observation)
        (dbOk : Device → Bool) (sb : SaveArgs × Bool),
        sb ∈ (monitorCycle devices probe dbOk).saves → sb.1.isOnline = false →
        sb.1.powerConsumptionW = none) := by
  constructor
  · intro deviceId deviceName deviceInfo status rt h
    cases status with
    | ok e =>
      simp only [statusCallFailed, Bool.not_eq_true'] at h
      simp [checkDeviceAvailability, h]
    | error e => simp [checkDeviceAvailability]
  · intro devices probe dbOk sb hmem hoff
    simp only [monitorCycle, List.map_map, List.mem_map] at hmem
    obtain ⟨d, _, rfl⟩ := hmem
    revert hoff
    cases hp : probe d with
    | ok r =>
      simp only [Function.comp, monitorDevice, hp]
      intro hoff
      simp [hoff]
    | error m => simp [Function.comp, monitorDevice, hp]

/-- Witness for C1 (amended), at a timed-out probe and a one-device cycle
whose probe reports offline. -/
theorem offline_power_recording_witness :
    (statusCallFailed (Except.error { message := "boom" }) = true ∧
      (checkDeviceAvailability "d" none none (Except.error { message := "boom" }) 0).isOnline
        = false ∧
      (checkDeviceAvailability "d" none none
        (Except.error { message := "boom" }) 0).powerConsumptionW = none ∧
      (checkDeviceAvailability "d" none none (Except.error { message := "boom" }) 0).voltageV
        = none) ∧
    ((({ deviceId := "x", deviceName := some "X", isOnline := false, responseTimeMs := none, powerConsumptionW := none, error := some "err" } : SaveArgs), true) ∈
      (monitorCycle [{ id := "x", name := "X" }] (fun _ => Except.error "err")
        (fun _ => true)).saves ∧
      (({ deviceId := "x", deviceName := some "X", isOnline := false, responseTimeMs := none, powerConsumptionW := none, error := some "err" } : SaveArgs), true).1.powerConsumptionW
        = none) :=
  ⟨⟨by decide, offline_power_recording.1 "d" none none (Except.error { message := "boom" }) 0
      (by decide)⟩,
    by
      refine ⟨?_, ?_⟩
      · simp [monitorCycle, monitorDevice]
      · exact offline_power_recording.2 [{ id := "x", name := "X" }]
          (fun _ => Except.error "err") (fun _ => true)
          (({ deviceId := "x", deviceName := some "X", isOnline := false, responseTimeMs := none, powerConsumptionW := none, error := some "err" } : SaveArgs), true)
          (by simp [monitorCycle, monitorDevice]) rfl⟩

/-! ## C3 — token cache expiry window (corrected: a zero lifetime falls back
to the 7200 s default) -/

/-- C3 counterexample: a provider-reported lifetime of exactly `0` seconds is
falsy, so `expire_time || 7200` substitutes the 7200 s default; at elapsed
time `0` — which is at/past `L − 300 = −300` s — the cached token is returned
with no new fetch (third component `false`), where the claim requires a
fresh fetch. -/
theorem token_zero_lifetime_counterexample :
    ((0 : Int) ≥ 0 - 300) ∧
    getAccessToken false 0 (FetchOutcome.netError "down")
      (fetchAndStoreToken 0 (FetchOutcome.ok "tuyatok" (some 0))).2.1 =
      (Except.ok "tuyatok",
        (fetchAndStoreToken 0 (FetchOutcome.ok "tuyatok" (some 0))).2.1, false) := by
  constructor
  · decide
  · rfl

/-- C3 (amended): after a successful fetch at wall-clock `t0 ≥ 0` (ms) with
provider-reported lifetime `L ≠ 0` seconds, the cached token is returned with
no new fetch at every elapsed time `e ≥ 0` seconds strictly below `L − 300`,
and at every elapsed time at or past `L − 300` a fresh fetch is performed
instead of returning the stale token; in particular a 7200 s token is served
from cache up to 6900 s and refreshed thereafter (see the witness).  A
reported lifetime of exactly `0` falls back to the 7200 s default (see the
counterexample). -/
theorem token_cache_expiry_window
    (t0 L e : Int) (tok : String) (f : FetchOutcome) (htok : tok ≠ "") (hL : L ≠ 0)
    (ht0 : 0 ≤ t0) (he : 0 ≤ e) :
    (e < L - 300 →
      getAccessToken false (t0 + e * 1000) f
        (fetchAndStoreToken t0 (FetchOutcome.ok tok (some L))).2.1 =
        (Except.ok tok, (fetchAndStoreToken t0 (FetchOutcome.ok tok (some L))).2.1, false)) ∧
    (L - 300 ≤ e →
      getAccessToken false (t0 + e * 1000) f
        (fetchAndStoreToken t0 (FetchOutcome.ok tok (some L))).2.1 =
        fetchAndStoreToken (t0 + e * 1000) f) := by
  have hjs : jsOrIntD (some L) 7200 = L := by simp [jsOrIntD, hL]
  constructor
  · intro hlt
    have h2 : expiryFresh (some (t0 + L * 1000 - 300000)) (t0 + e * 1000) = true := by
      simp only [expiryFresh, Bool.and_eq_true, bne_iff_ne, ne_eq, decide_eq_true_eq]
      omega
    simp [getAccessToken, fetchAndStoreToken, hjs, tokenTruthy, htok, h2]
  · intro hge
    have h2 : expiryFresh (some (t0 + L * 1000 - 300000)) (t0 + e * 1000) = false := by
      simp only [expiryFresh, Bool.and_eq_false_iff, bne_eq_false_iff_eq, decide_eq_false_iff_not,
        not_lt]
      omega
    simp [getAccessToken, fetchAndStoreToken, hjs, tokenTruthy, htok, h2]

/-- Witness for C3 (amended) at lifetime 7200 s: cached at 6899 s, refreshed
at 6900 s. -/
theorem token_cache_expiry_window_witness :
    ("tuyatok" ≠ "") ∧ ((7200 : Int) ≠ 0) ∧
    getAccessToken false (0 + 6899 * 1000) (FetchOutcome.netError "down")
      (fetchAndStoreToken 0 (FetchOutcome.ok "tuyatok" (some 7200))).2.1 =
      (Except.ok "tuyatok",
        (fetchAndStoreToken 0 (FetchOutcome.ok "tuyatok" (some 7200))).2.1, false) ∧
    getAccessToken false (0 + 6900 * 1000) (FetchOutcome.netError "down")
      (fetchAndStoreToken 0 (FetchOutcome.ok "tuyatok" (some 7200))).2.1 =
      fetchAndStoreToken (0 + 6900 * 1000) (FetchOutcome.netError "down") :=
  ⟨by decide, by decide,
    (token_cache_expiry_window 0 7200 6899 "tuyatok" (FetchOutcome.netError "down")
        (by decide) (by decide) (by decide) (by decide)).1 (by decide),
    (token_cache_expiry_window 0 7200 6900 "tuyatok" (FetchOutcome.netError "down")
        (by decide) (by decide) (by decide) (by decide)).2 (by decide)⟩

/-! ## C2 — auth-rejection retry: exactly one retry with a fresh token -/

/-- C2: when the cached token is valid but the first status response is an
envelope with auth-rejection code 1010 or 1011, `makeTuyaRequest` clears the
cache and retries exactly once with a freshly fetched token (one token fetch
is performed, and the second request carries the newly fetched token); when
the retried response is again an auth-rejection envelope, that envelope is
surfaced as the result and no third request is issued (the request index
advances by exactly 2 and the request trace has exactly two entries). -/
theorem auth_retry_exactly_once
    (fetchSeq : Nat → FetchOutcome) (respond : Nat → Except JsError Envelope)
    (now : Int) (st : TokenState) (fetchIdx reqIdx : Nat)
    (tok0 newTok : String) (exp : Int) (newExp : Option Int) (e0 e1 : Envelope)
    (h0 : st.accessToken = some tok0) (h0ne : tok0 ≠ "")
    (hexp : st.tokenExpiryTime = some exp) (hexp0 : exp ≠ 0) (hnow : now < exp)
    (hf : fetchSeq fetchIdx = FetchOutcome.ok newTok newExp)
    (hr0 : respond reqIdx = Except.ok e0) (hs0 : e0.success = false)
    (hc0 : e0.code = some 1010 ∨ e0.code = some 1011)
    (hr1 : respond (reqIdx + 1) = Except.ok e1) (hs1 : e1.success = false)
    (hc1 : e1.code = some 1010 ∨ e1.code = some 1011) :
    makeTuyaRequest fetchSeq respond now st fetchIdx reqIdx 0 =
      (Except.ok e1,
        { accessToken := some newTok,
          tokenExpiryTime := some (now + jsOrIntD newExp 7200 * 1000 - 5 * 60 * 1000) },
        fetchIdx + 1, reqIdx + 2, [tok0, newTok]) := by
  have hga : getAccessToken false now (fetchSeq fetchIdx) st = (Except.ok tok0, st, false) := by
    have h2 : expiryFresh st.tokenExpiryTime now = true := by
      simp only [hexp, expiryFresh, Bool.and_eq_true, bne_iff_ne, ne_eq, decide_eq_true_eq]
      exact ⟨hexp0, hnow⟩
    simp [getAccessToken, tokenTruthy, h0, h0ne, h2]
  have hga2 : getAccessToken false now (fetchSeq fetchIdx)
      { accessToken := none, tokenExpiryTime := none } =
      (Except.ok newTok,
        { accessToken := some newTok,
          tokenExpiryTime := some (now + jsOrIntD newExp 7200 * 1000 - 5 * 60 * 1000) },
        true) := by
    simp [getAccessToken, tokenTruthy, fetchAndStoreToken, hf]
  rcases hc0 with hc0 | hc0 <;> rcases hc1 with hc1 | hc1 <;>
    simp [makeTuyaRequest.eq_def, hga, hga2, hr0, hr1, hs0, hs1, hc0, hc1]

/-- Witness for C2 at a concrete two-auth-failure run. -/
theorem auth_retry_exactly_once_witness :
    ((fun i => if i = 0 then
        Except.ok ({ success := false, code := some 1010 } : Envelope)
      else Except.ok ({ success := false, code := some 1011 } : Envelope)) :
        Nat → Except JsError Envelope) 0 =
      Except.ok ({ success := false, code := some 1010 } : Envelope) ∧
    makeTuyaRequest (fun _ => FetchOutcome.ok "fresh" (some 7200))
      ((fun i => if i = 0 then
        Except.ok ({ success := false, code := some 1010 } : Envelope)
      else Except.ok ({ success := false, code := some 1011 } : Envelope)) :
        Nat → Except JsError Envelope)
      0 { accessToken := some "cached", tokenExpiryTime := some 99 } 0 0 0 =
      (Except.ok ({ success := false, code := some 1011 } : Envelope),
        { accessToken := some "fresh",
          tokenExpiryTime := some (0 + jsOrIntD (some 7200) 7200 * 1000 - 5 * 60 * 1000) },
        0 + 1, 0 + 2, ["cached", "fresh"]) :=
  ⟨rfl,
    auth_retry_exactly_once (fun _ => FetchOutcome.ok "fresh" (some 7200))
      ((fun i => if i = 0 then
        Except.ok ({ success := false, code := some 1010 } : Envelope)
      else Except.ok ({ success := false, code := some 1011 } : Envelope)) :
        Nat → Except JsError Envelope)
      0 { accessToken := some "cached", tokenExpiryTime := some 99 } 0 0
      "cached" "fresh" 99 (some 7200)
      { success := false, code := some 1010 } { success := false, code := some 1011 }
      rfl (by decide) rfl (by decide) (by decide) rfl rfl rfl (Or.inl rfl) rfl rfl
      (Or.inr rfl)⟩

/-! ## C7 — cycle summary counts and per-device entries -/

/-- Projecting observations to result entries preserves the online flag,
hence the filtered length. -/
lemma length_filter_toResultEntry (l : List Observation) :
    ((l.map toResultEntry).filter (fun r => r.isOnline)).length =
      (l.filter (fun r => r.isOnline)).length := by
  induction l with
  | nil => rfl
  | cons a t ih =>
    by_cases h : a.isOnline <;> simp [toResultEntry, List.filter_cons, h, ih]

/-- C7: one poll cycle returns a summary whose `devicesChecked` equals the
number of configured devices, whose `online` equals the number of per-device
result entries with `isOnline = true`, whose `offline` is the complement,
and which contains one entry (deviceId, deviceName, isOnline,
responseTimeMs, powerConsumptionW) per device; in the claim's scenario (one
device succeeding at `cur_power = 235`, one timing out) the summary is
`{devicesChecked := 2, online := 1, offline := 1}`. -/
theorem monitor_cycle_summary
    (devices : List Device) (probe : Device → Except String Observation)
    (dbOk : Device → Bool) :
    ((monitorCycle devices probe dbOk).summary.devicesChecked = devices.length ∧
      (monitorCycle devices probe dbOk).summary.online =
        (((monitorCycle devices probe dbOk).summary.results).filter
          (fun r => r.isOnline)).length ∧
      (monitorCycle devices probe dbOk).summary.offline =
        (monitorCycle devices probe dbOk).summary.devicesChecked -
          (monitorCycle devices probe dbOk).summary.online ∧
      (monitorCycle devices probe dbOk).summary.results =
        devices.map (fun d => toResultEntry (monitorDevice d (probe d) (dbOk d)).1)) ∧
    ((monitorCycle [{ id := "idA", name := "Розетка 1" }, { id := "idB", name := "Розетка 2" }]
        ((fun d => if d.id = "idA" then
          Except.ok (checkDeviceAvailability "idA" (some "Розетка 1") none
            (Except.ok { success := true, result := ResultField.arr [("cur_power", 235)] }) 120)
        else
          Except.ok (checkDeviceAvailability "idB" (some "Розетка 2") none
            (Except.error { code := some NetCode.ECONNABORTED, message := "timeout of 15000ms exceeded" }) 15000)) :
          Device → Except String Observation)
        (fun _ => true)).summary.devicesChecked = 2 ∧
      (monitorCycle [{ id := "idA", name := "Розетка 1" }, { id := "idB", name := "Розетка 2" }]
        ((fun d => if d.id = "idA" then
          Except.ok (checkDeviceAvailability "idA" (some "Розетка 1") none
            (Except.ok { success := true, result := ResultField.arr [("cur_power", 235)] }) 120)
        else
          Except.ok (checkDeviceAvailability "idB" (some "Розетка 2") none
            (Except.error { code := some NetCode.ECONNABORTED, message := "timeout of 15000ms exceeded" }) 15000)) :
          Device → Except String Observation)
        (fun _ => true)).summary.online = 1 ∧
      (monitorCycle [{ id := "idA", name := "Розетка 1" }, { id := "idB", name := "Розетка 2" }]
        ((fun d => if d.id = "idA" then
          Except.ok (checkDeviceAvailability "idA" (some "Розетка 1") none
            (Except.ok { success := true, result := ResultField.arr [("cur_power", 235)] }) 120)
        else
          Except.ok (checkDeviceAvailability "idB" (some "Розетка 2") none
            (Except.error { code := some NetCode.ECONNABORTED, message := "timeout of 15000ms exceeded" }) 15000)) :
          Device → Except String Observation)
        (fun _ => true)).summary.offline = 1) := by
  refine ⟨⟨?_, ?_, ?_, ?_⟩, ?_, ?_, ?_⟩
  · simp [monitorCycle]
  · simp only [monitorCycle]
    exact (length_filter_toResultEntry _).symm
  · simp only [monitorCycle]
  · simp [monitorCycle, List.map_map, Function.comp]
  · rfl
  · rfl
  · rfl

/-! ## C8 — persistence failures never change the reported verdict -/

/-- C8: the summary returned by a poll cycle is entirely independent of
whether the `db.savePowerStatus` writes succeed or throw, and the entry
reported for each device whose probe produced observation `r` is exactly
`r`'s deviceId, deviceName, isOnline, responseTimeMs and powerConsumptionW. -/
theorem db_failure_preserves_summary
    (devices : List Device) (probe : Device → Except String Observation)
    (dbOk dbOk2 : Device → Bool) :
    (monitorCycle devices probe dbOk).summary = (monitorCycle devices probe dbOk2).summary ∧
    (∀ (i : Nat) (d : Device) (r : Observation), devices[i]? = some d →
      probe d = Except.ok r →
      (monitorCycle devices probe dbOk).summary.results[i]? = some (toResultEntry r)) := by
  have hfst : ∀ (d : Device) (b b2 : Bool),
      (monitorDevice d (probe d) b).1 = (monitorDevice d (probe d) b2).1 := by
    intro d b b2; cases probe d <;> rfl
  constructor
  · have hmap : (devices.map (fun d => monitorDevice d (probe d) (dbOk d))).map Prod.fst =
        (devices.map (fun d => monitorDevice d (probe d) (dbOk2 d))).map Prod.fst := by
      simp only [List.map_map]
      exact List.map_congr_left (fun d _ => hfst d _ _)
    simp only [monitorCycle]
    rw [hmap]
  · intro i d r hi hp
    simp [monitorCycle, List.getElem?_map, hi, monitorDevice, hp]

/-- Witness for C8: a one-device cycle with a failing persistence write still
reports the probe's real entry. -/
theorem db_failure_preserves_summary_witness :
    (([({ id := "x", name := "X" } : Device)])[0]? = some ({ id := "x", name := "X" } : Device)) ∧
    (monitorCycle [{ id := "x", name := "X" }]
      ((fun _ => Except.ok { isOnline := true, responseTimeMs := some 5, powerConsumptionW := none, voltageV := none, error := none, deviceId := "x", deviceName := some "X" }) :
        Device → Except String Observation)
      (fun _ => false)).summary.results[0]? =
      some (toResultEntry { isOnline := true, responseTimeMs := some 5, powerConsumptionW := none, voltageV := none, error := none, deviceId := "x", deviceName := some "X" }) :=
  ⟨rfl,
    (db_failure_preserves_summary [{ id := "x", name := "X" }]
        ((fun _ => Except.ok { isOnline := true, responseTimeMs := some 5, powerConsumptionW := none, voltageV := none, error := none, deviceId := "x", deviceName := some "X" }) :
          Device → Except String Observation)
        (fun _ => false) (fun _ => true)).2 0 { id := "x", name := "X" }
      { isOnline := true, responseTimeMs := some 5, powerConsumptionW := none, voltageV := none, error := none, deviceId := "x", deviceName := some "X" }
      rfl rfl⟩

/-! ## C6 — signature construction (corrected) -/

/-- Splitting a character list at its first newline is unambiguous. -/
lemma split_at_newline (m₁ : List Char) : ∀ (m₂ r₁ r₂ : List Char), '\n' ∉ m₁ → '\n' ∉ m₂ →
    m₁ ++ '\n' :: r₁ = m₂ ++ '\n' :: r₂ → m₁ = m₂ := by
  induction m₁ with
  | nil =>
    intro m₂ r₁ r₂ _ h2 h
    cases m₂ with
    | nil => rfl
    | cons c cs =>
      simp only [List.nil_append, List.cons_append, List.cons.injEq] at h
      simp only [List.mem_cons, not_or] at h2
      exact absurd h.1 h2.1
  | cons a as ih =>
    intro m₂ r₁ r₂ h1 h2 h
    cases m₂ with
    | nil =>
      simp only [List.cons_append, List.nil_append, List.cons.injEq] at h
      simp only [List.mem_cons, not_or] at h1
      exact absurd h.1.symm h1.1
    | cons c cs =>
      simp only [List.cons_append, List.cons.injEq] at h
      simp only [List.mem_cons, not_or] at h1 h2
      rw [h.1, ih cs r₁ r₂ h1.2 h2.2 h.2]

/-- Changing the timestamp alone changes the signature. -/
lemma signRequest_t_inj (clientId accessKey path method body : String)
    (cachedToken token : Option String) (query : List (String × String)) (t₁ t₂ : String)
    (h : t₁ ≠ t₂) :
    (signRequest clientId accessKey cachedToken path method query body token t₁).2 ≠
      (signRequest clientId accessKey cachedToken path method query body token t₂).2 := by
  intro hc
  apply h
  apply String.ext
  simp only [signRequest, Digest.hmacSHA256Hex.injEq] at hc
  have hd := congrArg String.data hc.2
  simp [String.data_append] at hd
  exact hd

/-- Changing the path alone changes the signature. -/
lemma signRequest_path_inj (clientId accessKey method body t : String)
    (cachedToken token : Option String) (query : List (String × String)) (p₁ p₂ : String)
    (h : p₁ ≠ p₂) :
    (signRequest clientId accessKey cachedToken p₁ method query body token t).2 ≠
      (signRequest clientId accessKey cachedToken p₂ method query body token t).2 := by
  intro hc
  apply h
  apply String.ext
  simp only [signRequest, Digest.hmacSHA256Hex.injEq] at hc
  have hd := congrArg String.data hc.2
  by_cases hq : canonicalQuery query = "" <;> simp [hq, String.data_append] at hd <;> exact hd

/-- Changing a present non-empty token alone changes the signature. -/
lemma signRequest_token_inj (clientId accessKey path method body t : String)
    (cachedToken : Option String) (query : List (String × String)) (tok₁ tok₂ : String)
    (h1 : tok₁ ≠ "") (h2 : tok₂ ≠ "") (h : tok₁ ≠ tok₂) :
    (signRequest clientId accessKey cachedToken path method query body (some tok₁) t).2 ≠
      (signRequest clientId accessKey cachedToken path method query body (some tok₂) t).2 := by
  intro hc
  apply h
  apply String.ext
  simp only [signRequest, Digest.hmacSHA256Hex.injEq, jsOrStr, h1, h2, if_neg] at hc
  have hd := congrArg String.data hc.2
  simp [String.data_append] at hd
  exact hd

/-- Changing the (newline-free) method alone changes the signature. -/
lemma signRequest_method_inj (clientId accessKey path body t : String)
    (cachedToken token : Option String) (query : List (String × String)) (m₁ m₂ : String)
    (h1 : ('\n' : Char) ∉ m₁.data) (h2 : ('\n' : Char) ∉ m₂.data) (h : m₁ ≠ m₂) :
    (signRequest clientId accessKey cachedToken path m₁ query body token t).2 ≠
      (signRequest clientId accessKey cachedToken path m₂ query body token t).2 := by
  intro hc
  apply h
  apply String.ext
  simp only [signRequest, Digest.hmacSHA256Hex.injEq] at hc
  have hd := congrArg String.data hc.2
  simp [String.data_append, sha256Hex] at hd
  exact split_at_newline _ _ _ _ h1 h2 hd

/-- Changing the body of a POST request alone changes the signature (in the
symbolic collision-free model of the content hash). -/
lemma signRequest_post_body_inj (clientId accessKey path t : String)
    (cachedToken token : Option String) (query : List (String × String)) (b₁ b₂ : String)
    (h : b₁ ≠ b₂) :
    (signRequest clientId accessKey cachedToken path "POST" query b₁ token t).2 ≠
      (signRequest clientId accessKey cachedToken path "POST" query b₂ token t).2 := by
  intro hc
  apply h
  apply String.ext
  simp only [signRequest, Digest.hmacSHA256Hex.injEq] at hc
  have hd := congrArg String.data hc.2
  simp [String.data_append, sha256Hex] at hd
  exact hd

/-- The body of a GET request is ignored entirely. -/
lemma signRequest_get_body_const (clientId accessKey path t : String)
    (cachedToken token : Option String) (query : List (String × String)) (b₁ b₂ : String) :
    signRequest clientId accessKey cachedToken path "GET" query b₁ token t =
      signRequest clientId accessKey cachedToken path "GET" query b₂ token t := by
  simp [signRequest]

/-- The query affects the signature only through its canonicalized string:
equal canonicalizations give equal signatures. -/
lemma signRequest_query_congr (clientId accessKey path method body t : String)
    (cachedToken token : Option String) (q₁ q₂ : List (String × String))
    (hq : canonicalQuery q₁ = canonicalQuery q₂) :
    signRequest clientId accessKey cachedToken path method q₁ body token t =
      signRequest clientId accessKey cachedToken path method q₂ body token t := by
  simp only [signRequest, hq]

/-- Distinct canonicalized query strings give distinct signatures. -/
lemma signRequest_query_inj (clientId accessKey path method body t : String)
    (cachedToken token : Option String) (q₁ q₂ : List (String × String))
    (hq : canonicalQuery q₁ ≠ canonicalQuery q₂) :
    (signRequest clientId accessKey cachedToken path method q₁ body token t).2 ≠
      (signRequest clientId accessKey cachedToken path method q₂ body token t).2 := by
  intro hc
  simp only [signRequest, Digest.hmacSHA256Hex.injEq] at hc
  have hd := congrArg String.data hc.2
  by_cases h1 : canonicalQuery q₁ = "" <;> by_cases h2 : canonicalQuery q₂ = ""
  · exact hq (h1.trans h2.symm)
  · simp [h1, h2, String.data_append] at hd
  · simp [h1, h2, String.data_append] at hd
  · simp [h1, h2, String.data_append] at hd
    exact hq (String.ext hd)

/-- The source signature refines the spec's described construction for the
methods the service issues. -/
lemma signRequest_matches_spec (clientId accessKey path method body t : String)
    (cachedToken token : Option String) (query : List (String × String))
    (hm : method = "GET" ∨ method = "POST" ∨ method = "PUT") :
    signRequest clientId accessKey cachedToken path method query body token t =
      (t, Digest.hmacSHA256Hex accessKey
        (specSigningPayload clientId cachedToken path method query body token t)) := by
  rcases hm with hm | hm | hm <;> subst hm <;>
    · simp only [signRequest, specSigningPayload, Prod.mk.injEq, Digest.hmacSHA256Hex.injEq]
      simp only [eq_self_iff_true, true_and]
      apply String.ext
      simp [String.data_append]

/-- C6 counterexample: "changing any single input changes the signature"
fails three ways — (a) two distinct bodies under GET yield the same
signature (the body is ignored for non-POST/PUT methods); (b) two distinct
query maps canonicalize to the same string `a=b=c` and yield the same
signature; (c) changing the token from absent to the cached module token
leaves the signature unchanged (the `token || accessToken || ''`
fallback). -/
theorem signature_single_input_counterexample :
    (("\x7b\x7d" : String) ≠ "\x7b\"a\":1\x7d" ∧
      signRequest "cid" "key" none "/v1.0/token" "GET" [] "\x7b\x7d" none "1700000000000" =
        signRequest "cid" "key" none "/v1.0/token" "GET" [] "\x7b\"a\":1\x7d" none
          "1700000000000") ∧
    (([(("a" : String), ("b=c" : String))] : List (String × String)) ≠ [("a=b", "c")] ∧
      signRequest "cid" "key" none "/p" "GET" [("a", "b=c")] "" none "t" =
        signRequest "cid" "key" none "/p" "GET" [("a=b", "c")] "" none "t") ∧
    ((none : Option String) ≠ some "tok" ∧
      signRequest "cid" "key" (some "tok") "/p" "GET" [] "" none "t" =
        signRequest "cid" "key" (some "tok") "/p" "GET" [] "" (some "tok") "t") := by
  exact ⟨⟨by decide, rfl⟩, ⟨by decide, rfl⟩, ⟨by decide, rfl⟩⟩

/-- C6 (amended): for fixed inputs the signature is deterministic and is the
keyed digest of the payload the spec describes (client id, then the token —
falling back to the cached module token, then the empty string —, then the
timestamp, then `METHOD\ncontentHash\n\nPATH[?sortedQuery]`); changing the
path, the timestamp, a present non-empty token, the (newline-free) method,
or the body of a POST alone changes the signature, and the query changes it
exactly when its canonicalized string changes.  The body is ignored for
methods other than POST/PUT, and an absent token falls back to the cached
module token (see the counterexample). -/
theorem signature_construction
    : (∀ (clientId accessKey path method body t : String)
        (cachedToken token : Option String) (query : List (String × String)),
        method = "GET" ∨ method = "POST" ∨ method = "PUT" →
        signRequest clientId accessKey cachedToken path method query body token t =
          (t, Digest.hmacSHA256Hex accessKey
            (specSigningPayload clientId cachedToken path method query body token t))) ∧
      (∀ (clientId accessKey method body t : String)
        (cachedToken token : Option String) (query : List (String × String)) (p₁ p₂ : String),
        p₁ ≠ p₂ →
        (signRequest clientId accessKey cachedToken p₁ method query body token t).2 ≠
          (signRequest clientId accessKey cachedToken p₂ method query body token t).2) ∧
      (∀ (clientId accessKey path method body : String)
        (cachedToken token : Option String) (query : List (String × String)) (t₁ t₂ : String),
        t₁ ≠ t₂ →
        (signRequest clientId accessKey cachedToken path method query body token t₁).2 ≠
          (signRequest clientId accessKey cachedToken path method query body token t₂).2) ∧
      (∀ (clientId accessKey path method body t : String)
        (cachedToken : Option String) (query : List (String × String)) (tok₁ tok₂ : String),
        tok₁ ≠ "" → tok₂ ≠ "" → tok₁ ≠ tok₂ →
        (signRequest clientId accessKey cachedToken path method query body (some tok₁) t).2 ≠
          (signRequest clientId accessKey cachedToken path method query body (some tok₂) t).2) ∧
      (∀ (clientId accessKey path body t : String)
        (cachedToken token : Option String) (query : List (String × String)) (m₁ m₂ : String),
        ('\n' : Char) ∉ m₁.data → ('\n' : Char) ∉ m₂.data → m₁ ≠ m₂ →
        (signRequest clientId accessKey cachedToken path m₁ query body token t).2 ≠
          (signRequest clientId accessKey cachedToken path m₂ query body token t).2) ∧
      (∀ (clientId accessKey path t : String)
        (cachedToken token : Option String) (query : List (String × String)) (b₁ b₂ : String),
        b₁ ≠ b₂ →
        (signRequest clientId accessKey cachedToken path "POST" query b₁ token t).2 ≠
          (signRequest clientId accessKey cachedToken path "POST" query b₂ token t).2) ∧
      (∀ (clientId accessKey path t : String)
        (cachedToken token : Option String) (query : List (String × String)) (b₁ b₂ : String),
        signRequest clientId accessKey cachedToken path "GET" query b₁ token t =
          signRequest clientId accessKey cachedToken path "GET" query b₂ token t) ∧
      (∀ (clientId accessKey path method body t : String)
        (cachedToken token : Option String) (q₁ q₂ : List (String × String)),
        (canonicalQuery q₁ = canonicalQuery q₂ →
          signRequest clientId accessKey cachedToken path method q₁ body token t =
            signRequest clientId accessKey cachedToken path method q₂ body token t) ∧
        (canonicalQuery q₁ ≠ canonicalQuery q₂ →
          (signRequest clientId accessKey cachedToken path method q₁ body token t).2 ≠
            (signRequest clientId accessKey cachedToken path method q₂ body token t).2)) :=
  ⟨fun c k p m b t ct tok q hm => signRequest_matches_spec c k p m b t ct tok q hm,
    fun c k m b t ct tok q p₁ p₂ h => signRequest_path_inj c k m b t ct tok q p₁ p₂ h,
    fun c k p m b ct tok q t₁ t₂ h => signRequest_t_inj c k p m b ct tok q t₁ t₂ h,
    fun c k p m b t ct q tok₁ tok₂ h1 h2 h =>
      signRequest_token_inj c k p m b t ct q tok₁ tok₂ h1 h2 h,
    fun c k p b t ct tok q m₁ m₂ h1 h2 h =>
      signRequest_method_inj c k p b t ct tok q m₁ m₂ h1 h2 h,
    fun c k p t ct tok q b₁ b₂ h => signRequest_post_body_inj c k p t ct tok q b₁ b₂ h,
    fun c k p t ct tok q b₁ b₂ => signRequest_get_body_const c k p t ct tok q b₁ b₂,
    fun c k p m b t ct tok q₁ q₂ =>
      ⟨fun hq => signRequest_query_congr c k p m b t ct tok q₁ q₂ hq,
        fun hq => signRequest_query_inj c k p m b t ct tok q₁ q₂ hq⟩⟩

/-- Witness for C6 (amended) at concrete inputs for each conjunct. -/
theorem signature_construction_witness :
    (signRequest "cid" "key" none "/v1.0/token" "GET" [("grant_type", "1")] "" none "17" =
      ("17", Digest.hmacSHA256Hex "key"
        (specSigningPayload "cid" none "/v1.0/token" "GET" [("grant_type", "1")] "" none
          "17"))) ∧
    ((signRequest "cid" "key" none "/a" "GET" [] "" none "17").2 ≠
      (signRequest "cid" "key" none "/b" "GET" [] "" none "17").2) ∧
    ((signRequest "cid" "key" none "/a" "GET" [] "" none "17").2 ≠
      (signRequest "cid" "key" none "/a" "GET" [] "" none "18").2) ∧
    ((signRequest "cid" "key" none "/a" "GET" [] "" (some "u") "17").2 ≠
      (signRequest "cid" "key" none "/a" "GET" [] "" (some "v") "17").2) ∧
    ((signRequest "cid" "key" none "/a" "GET" [] "" none "17").2 ≠
      (signRequest "cid" "key" none "/a" "PUT" [] "" none "17").2) ∧
    ((signRequest "cid" "key" none "/a" "POST" [] "x" none "17").2 ≠
      (signRequest "cid" "key" none "/a" "POST" [] "y" none "17").2) :=
  ⟨signature_construction.1 "cid" "key" "/v1.0/token" "GET" "" "17" none none
      [("grant_type", "1")] (Or.inl rfl),
    signature_construction.2.1 "cid" "key" "GET" "" "17" none none [] "/a" "/b" (by decide),
    signature_construction.2.2.1 "cid" "key" "/a" "GET" "" none none [] "17" "18" (by decide),
    signature_construction.2.2.2.1 "cid" "key" "/a" "GET" "" "17" none [] "u" "v" (by decide)
      (by decide) (by decide),
    signature_construction.2.2.2.2.1 "cid" "key" "/a" "" "17" none none [] "GET" "PUT"
      (by decide) (by decide) (by decide),
    signature_construction.2.2.2.2.2.1 "cid" "key" "/a" "17" none none [] "x" "y" (by decide)⟩

end PowerMonitor
